import Mathlib

/-!
Shallow embedding of the storage-node core of
`DevipriyaSarkar/distributed_file_system_sample` (files `src/utilities.py`,
`src/storage_node.py`) and proofs about the claims of its specification.

Modelling conventions:
* Byte strings are `List Nat` (one `Nat` per byte value).
* A socket's inbound byte stream is a function `reads : Nat → List Nat`
  giving the chunk returned by the k-th `sock.recv(BUFFER_SIZE)` call; the
  empty list models a zero-length read (peer closed).  Real `recv` returns
  at most `BUFFER_SIZE` bytes; the model lets a chunk be any list, a
  superset of the real behaviours, so universally quantified theorems are
  at least as strong and every concrete counterexample below uses chunks
  within the real bound.
* The node's storage is a flat map from file path to content
  (`FS := List (String × List Nat)`); `os.makedirs` is a no-op on this map
  and `open(path, "wb")` never fails in the model (directory-related I/O
  errors are outside the claims, which concern byte counting, digests and
  path construction).
* MD5 (`utilities.calc_file_md5`) is abstracted as an injective fingerprint
  of the file content, rendered as a string: the claims depend only on
  whether two digests are equal, never on MD5's internals or on collisions,
  and every digest-equality pattern used below is realisable with real MD5
  (equal contents, or a hash field chosen as the MD5 of a given content).
* A Python exception that escapes a function is `Except.error` carrying the
  kind of exception; a returned value is `Except.ok`.
-/

/-- Protocol constant `BUFFER_SIZE = 1024` (both source files). -/
def BUFFER_SIZE : Nat := 1024

/-- Constant `GET_REQUEST = "<GET_REQUEST>"`. -/
def GET_REQUEST : String := "<GET_REQUEST>"

/-- Constant `PUT_REQUEST = "<PUT_REQUEST>"`. -/
def PUT_REQUEST : String := "<PUT_REQUEST>"

/-- Constant `STATUS_REQUEST = "<STATUS_REQUEST>"` (`storage_node.py`). -/
def STATUS_REQUEST : String := "<STATUS_REQUEST>"

/-- Constant `SERVER_AVAILABLE_CODE = "200"` (`storage_node.py`). -/
def SERVER_AVAILABLE_CODE : String := "200"

/-- Constant `TRANSFER_SUCCESSFUL_CODE = "TRANSFER_SUCCESSFUL"` (`storage_node.py`). -/
def TRANSFER_SUCCESSFUL_CODE : String := "TRANSFER_SUCCESSFUL"

/-- Constant `NOTIFY_SUCCESS = "<NOTIFY_SUCCESS>"` (`utilities.py`). -/
def NOTIFY_SUCCESS : String := "<NOTIFY_SUCCESS>"

/-- Constant `NOTIFY_FAILURE = "<NOTIFY_FAILURE>"` (`utilities.py`). -/
def NOTIFY_FAILURE : String := "<NOTIFY_FAILURE>"

/-- Constant `SEPARATOR = "<>"` (both source files). -/
def SEPARATOR : String := "<>"

/-- Kind of a Python exception escaping a handler uncaught. -/
inductive PyError where
  /-- `ValueError`: failed tuple unpacking or a failed `int(...)`. -/
  | valueError : PyError
  /-- `TypeError`: e.g. `bytes(None, "utf-8")` on a `None` response. -/
  | typeError : PyError
deriving DecidableEq, Repr

/-- Scanner for Python `str.split(sep)` with a non-empty separator, over
character lists: scan left to right for non-overlapping occurrences of
`sep`, cutting a field at each one.  `acc` holds the current field in
reverse; `fuel` only bounds the recursion and is taken at least the length
of the input, so the `0` case is never reached. -/
def py_split_go (sep : List Char) : Nat → List Char → List Char → List (List Char)
  | 0, s, acc => [acc.reverse ++ s]
  | fuel + 1, s, acc =>
    if sep.isPrefixOf s then
      acc.reverse :: py_split_go sep fuel (s.drop sep.length) []
    else
      match s with
      | [] => [acc.reverse]
      | c :: rest => py_split_go sep fuel rest (c :: acc)

/-- Model of Python `s.split(sep)` for a non-empty separator: the list of
fields between non-overlapping occurrences of `sep` (`[""].split` of the
empty string is `[""]`, and a trailing separator yields a trailing empty
field, as in Python). -/
def py_split (s sep : String) : List String :=
  List.map (fun l => ⟨l⟩) (py_split_go sep.data (s.data.length + 1) s.data [])

/-- Model of Python `s.replace(pat, repl)` for a non-empty pattern, via the
identity `s.replace(pat, repl) == repl.join(s.split(pat))`. -/
def py_replace (s pat repl : String) : String :=
  ⟨List.intercalate repl.data (py_split_go pat.data (s.data.length + 1) s.data [])⟩

/-- Run of decimal digits accumulated into a number; `none` as soon as a
non-digit appears. -/
def py_digits (acc : Nat) : List Char → Option Nat
  | [] => some acc
  | c :: rest =>
    if c.isDigit then py_digits (acc * 10 + (c.toNat - 48)) rest
    else none

/-- Model of Python `int(s)` for the base-10 strings the protocol carries:
`some` of the value on an optionally `'-'`-signed run of decimal digits,
`none` when `int` would raise `ValueError` (a non-numeric string, `""`, or
a bare `"-"`).  Python's extra leniencies (surrounding whitespace, a `'+'`
sign, `'_'` digit separators) are not modelled; no claim involves them. -/
def py_int (s : String) : Option Int :=
  match s.data with
  | [] => none
  | ['-'] => none
  | '-' :: rest => Option.map (fun m => -(m : Int)) (py_digits 0 rest)
  | l => Option.map (fun m => (m : Int)) (py_digits 0 l)

/-- Model of `os.path.basename` on POSIX: the characters after the last
`'/'` (the whole string when there is no `'/'`). -/
def os_path_basename (p : String) : String :=
  ⟨(p.data.reverse.takeWhile (fun c => c != '/')).reverse⟩

/-- Abstraction of `utilities.calc_file_md5`: the digest of a file is an
injective fingerprint of its content, rendered as a string (the source
computes the MD5 hex digest by streaming the file in 4096-byte blocks; the
claims depend only on digest equality, never on the hash's internals). -/
def calc_file_md5 (content : List Nat) : String :=
  toString content

/-- Model of `utilities.is_file_integrity_matched`: recompute the digest of
the stored content and compare with the received hash; on mismatch it
raises `Exception("File integrity check failed!")` (an `Except.error`
carrying that message), otherwise it returns `True`. -/
def is_file_integrity_matched (content : List Nat) (recvd_hash : String) :
    Except String Bool :=
  if calc_file_md5 content != recvd_hash then
    Except.error "File integrity check failed!"
  else
    Except.ok true

/-- The node's storage state: a map from file path to file content. -/
abbrev FS : Type := List (String × List Nat)

/-- Write (create or truncate-and-overwrite) the file at `path`. -/
def fs_write (fs : FS) (path : String) (content : List Nat) : FS :=
  (path, content) :: List.filter (fun e => e.1 != path) fs

/-- Content of the file at `path`, when present. -/
def fs_lookup (fs : FS) (path : String) : Option (List Nat) :=
  Option.map (fun e => e.2) (List.find? (fun e => e.1 == path) fs)

/-- State of the chunked receive loop shared by
`DistributedNodeHandler.do_put_handler` (storage_node.py lines 88-103) and
`utilities.receive_file_from_sock` (utilities.py lines 152-167):
`total` is `total_bytes_read`, `content` the bytes written to the file so
far, `numReads` the number of `sock.recv` calls made so far. -/
structure RecvState where
  total : Nat
  content : List Nat
  numReads : Nat
deriving DecidableEq, Repr

/-- The receive loop body, iterated at most `fuel` times — the source loop
is `for _ in range(file_size)`, so `fuel` starts at the declared size.
Each iteration: `bytes_read = sock.recv(BUFFER_SIZE)`; if the read is
empty, break; otherwise add its length to the running total, append it to
the file, and break if the total equals the declared size. -/
def recv_write_loop (reads : Nat → List Nat) (file_size : Nat) :
    Nat → RecvState → RecvState
  | 0, st => st
  | fuel + 1, st =>
    let bytes_read := reads st.numReads
    if bytes_read = [] then
      { st with numReads := st.numReads + 1 }
    else
      let st2 : RecvState :=
        { total := st.total + bytes_read.length
          content := st.content ++ bytes_read
          numReads := st.numReads + 1 }
      if st2.total = file_size then st2
      else recv_write_loop reads file_size fuel st2

/-- A whole receive session for a declared size `n`: the loop run with
`range(n)` iterations available from the initial state (no bytes read, no
`recv` call made yet). -/
def recv_session (reads : Nat → List Nat) (n : Nat) : RecvState :=
  recv_write_loop reads n n ⟨0, [], 0⟩

/-- Model of `DistributedNodeHandler.do_put_handler` (storage_node.py lines
66-115).  Before the `try` block the source unpacks
`filename, file_size, file_hash = recvd_info_list` (raises `ValueError`
unless the list has exactly three fields), takes `os.path.basename`, and
converts `file_size = int(file_size)` (raises `ValueError` on a
non-integer) — those exceptions propagate out of the handler.  Inside the
`try`, it writes the received bytes to
`STORAGE_DIR/filename`, runs the integrity check, and answers
`TRANSFER_SUCCESSFUL`; any exception raised there is caught and its
message becomes the response.  Returns the response and the new storage
state, or `Except.error` when an exception escapes. -/
def do_put_handler (storage_dir : String) (fs : FS) (reads : Nat → List Nat)
    (recvd_info_list : List String) : Except PyError (String × FS) :=
  match recvd_info_list with
  | [filename0, file_size_str, file_hash] =>
    let filename := os_path_basename filename0
    match py_int file_size_str with
    | none => Except.error PyError.valueError
    | some file_size =>
      let storage_filepath := storage_dir ++ "/" ++ filename
      let st := recv_session reads file_size.toNat
      let fs2 := fs_write fs storage_filepath st.content
      match is_file_integrity_matched st.content file_hash with
      | Except.error e => Except.ok (e, fs2)
      | Except.ok _ => Except.ok (TRANSFER_SUCCESSFUL_CODE, fs2)
  | _ => Except.error PyError.valueError

/-- Model of `DistributedNodeHandler.handle` (storage_node.py lines 43-63):
split the received text on `SEPARATOR`, dispatch on the first field, then
send the response.  The source `do_get_handler` body is `pass`, so on a
GET request `response_message` is `None` and `bytes(None, "utf-8")` at the
send raises `TypeError`, which escapes the handler. -/
def handle (storage_dir : String) (fs : FS) (reads : Nat → List Nat)
    (received : String) : Except PyError (String × FS) :=
  let info_list := py_split received SEPARATOR
  let request_type := info_list.headD ""
  if request_type = GET_REQUEST then
    Except.error PyError.typeError
  else if request_type = PUT_REQUEST then
    do_put_handler storage_dir fs reads info_list.tail
  else if request_type = STATUS_REQUEST then
    Except.ok (SERVER_AVAILABLE_CODE, fs)
  else
    Except.ok ("Request type not supported yet!", fs)

/-- Result of `utilities.send_file`: the framed header written to the
socket, the file bytes streamed after it, and the `(type, message)`
response tuple the function returns. -/
structure SendResult where
  header : String
  sent : List Nat
  response : String × String
deriving DecidableEq, Repr

/-- The send loop of `utilities.send_file` (utilities.py lines 189-203),
iterated at most `fuel` times (`for _ in range(file_size)`).  Each
iteration: `bytes_read = f.read(BUFFER_SIZE)` (the next chunk of the file
at position `pos`); add its length to the total; if empty, break; else
send it, and on `total == file_size` set the success response and break. -/
def send_loop (content : List Nat) (file_size : Nat) (success_msg : String) :
    Nat → Nat → List Nat → (String × String) → List Nat × (String × String)
  | 0, _, sent, resp => (sent, resp)
  | fuel + 1, pos, sent, resp =>
    let bytes_read := (content.drop pos).take BUFFER_SIZE
    let total := pos + bytes_read.length
    if bytes_read = [] then (sent, resp)
    else
      let sent2 := sent ++ bytes_read
      if total = file_size then (sent2, (NOTIFY_SUCCESS, success_msg))
      else send_loop content file_size success_msg fuel total sent2 resp

/-- Model of `utilities.send_file` (utilities.py lines 173-208) with
`want_server_response=False`: initialise the response to
`(NOTIFY_FAILURE, "Operation failed!")`, compute the file's size and
digest, send the `PUT_REQUEST`-framed header, then stream the file in
`BUFFER_SIZE` chunks; the success response is assigned only inside the
loop, when the running total reaches the file size. -/
def send_file (src_filepath : String) (content : List Nat) : SendResult :=
  let filename := os_path_basename src_filepath
  let file_size := content.length
  let file_hash := calc_file_md5 content
  let header := PUT_REQUEST ++ SEPARATOR ++ filename ++ SEPARATOR
    ++ toString file_size ++ SEPARATOR ++ file_hash
  let success_msg := "File " ++ src_filepath ++ " sent."
  let out := send_loop content file_size success_msg file_size 0 []
    (NOTIFY_FAILURE, "Operation failed!")
  { header := header, sent := out.1, response := out.2 }

/-- Modelled from the spec: the response shape of the GET path.  The body
of `DistributedNodeHandler.do_get_handler` is `pass` in the source
(storage_node.py lines 117-118); spec §4.4 and §6 require either a
`NOTIFY_FAILURE`-class message when the file is absent or, when present,
the `PUT_REQUEST`-shaped header followed by the raw file bytes. -/
inductive GetResponse where
  /-- A `NOTIFY_FAILURE`-class response string. -/
  | failure (message : String) : GetResponse
  /-- The `PUT_REQUEST`-shaped header `type<SEP>filename<SEP>size<SEP>hash`
  followed by the file bytes, as `utilities.send_file` frames them. -/
  | fileTransfer (header : String) (content : List Nat) : GetResponse
deriving DecidableEq, Repr

/-- Modelled from the spec: `DistributedNodeHandler.do_get_handler`, whose
body is `pass` in the source (storage_node.py lines 117-118).  Spec §4.4:
"resolve the requested file under the storage directory; if absent,
respond with a `NOTIFY_FAILURE`-class message; if present, invoke Transfer
Engine `send` over the same connection using the `PUT_REQUEST`-shaped
header".  The filename is sanitised to its base name per the §3 invariant,
and the header matches `utilities.send_file`'s framing. -/
def do_get_handler (storage_dir : String) (fs : FS)
    (recvd_info_list : List String) : GetResponse :=
  match recvd_info_list with
  | [] => GetResponse.failure (NOTIFY_FAILURE ++ SEPARATOR ++ "File not found!")
  | filename0 :: _ =>
    let filename := os_path_basename filename0
    let storage_filepath := storage_dir ++ "/" ++ filename
    match fs_lookup fs storage_filepath with
    | none => GetResponse.failure (NOTIFY_FAILURE ++ SEPARATOR ++ "File not found!")
    | some content =>
      GetResponse.fileTransfer
        (PUT_REQUEST ++ SEPARATOR ++ filename ++ SEPARATOR
          ++ toString content.length ++ SEPARATOR ++ calc_file_md5 content)
        content

/-- Model of `utilities.get_sn_table_name_from_ip` (utilities.py lines
18-22): `ip, port = ip_addr.split(':')` (raises unless the split gives
exactly two fields, hence `none` there), replace every `'.'` in the host
with `'_'`, and return `sn__<host>__<port>`. -/
def get_sn_table_name_from_ip (ip_addr : String) : Option String :=
  match py_split ip_addr ":" with
  | [ip, port] => some ("sn__" ++ py_replace ip "." "_" ++ "__" ++ port)
  | _ => none

/-- Model of `utilities.get_ip_from_sn_table_name` (utilities.py lines
24-27): `ip_addr = table_name.split('__')[1:]`, then return
`ip_addr[0] : ip_addr[1]` (raises `IndexError`, hence `none`, when fewer
than two fields remain).  Note the source does not turn underscores back
into dots. -/
def get_ip_from_sn_table_name (table_name : String) : Option String :=
  match (py_split table_name "__").drop 1 with
  | a0 :: a1 :: _ => some (a0 ++ ":" ++ a1)
  | _ => none

/-! ## Helper lemmas -/

/-- Looking up the path just written returns the written content. -/
theorem fs_lookup_write (fs : FS) (path : String) (content : List Nat) :
    fs_lookup (fs_write fs path content) path = some content := by
  simp [fs_lookup, fs_write, List.find?]

/-- The base name produced by `os_path_basename` contains no `'/'`: no
directory traversal survives sanitisation. -/
theorem os_path_basename_no_slash (p : String) :
    ∀ c ∈ (os_path_basename p).data, c ≠ '/' := by
  intro c hc
  have h1 : c ∈ p.data.reverse.takeWhile (fun c => c != '/') := by
    simpa [os_path_basename] using hc
  have h2 := List.mem_takeWhile_imp h1
  simpa using h2

/-- Closed form of `do_put_handler` on a three-field argument list whose
size field parses: the received bytes are written to
`storage_dir/basename(filename)` and the response is `TRANSFER_SUCCESSFUL`
exactly when the digest of the written content equals the received hash,
and otherwise the message of the integrity exception. -/
theorem do_put_handler_eq (storage_dir : String) (fs : FS)
    (reads : Nat → List Nat) (fn ss h : String) (n : Int)
    (hn : py_int ss = some n) :
    do_put_handler storage_dir fs reads [fn, ss, h]
      = Except.ok
          ((if calc_file_md5 (recv_session reads n.toNat).content = h then
              TRANSFER_SUCCESSFUL_CODE
            else "File integrity check failed!"),
           fs_write fs (storage_dir ++ "/" ++ os_path_basename fn)
             (recv_session reads n.toNat).content) := by
  by_cases hmd : calc_file_md5 (recv_session reads n.toNat).content = h
  · simp [do_put_handler, hn, is_file_integrity_matched, hmd]
  · simp [do_put_handler, hn, is_file_integrity_matched, hmd]

/-- The number of `recv` calls the receive loop makes is bounded by the
iteration budget it is given. -/
theorem recv_write_loop_numReads_le (reads : Nat → List Nat) (file_size : Nat) :
    ∀ fuel st, (recv_write_loop reads file_size fuel st).numReads ≤ st.numReads + fuel := by
  intro fuel
  induction fuel with
  | zero => intro st; exact Nat.le_refl _
  | succ k ih =>
    intro st
    simp only [recv_write_loop]
    by_cases h1 : reads st.numReads = []
    · rw [if_pos h1]
      show st.numReads + 1 ≤ st.numReads + (k + 1)
      omega
    · rw [if_neg h1]
      by_cases h2 : st.total + (reads st.numReads).length = file_size
      · rw [if_pos h2]
        show st.numReads + 1 ≤ st.numReads + (k + 1)
        omega
      · rw [if_neg h2]
        refine Nat.le_trans
          (ih { total := st.total + (reads st.numReads).length,
                content := st.content ++ reads st.numReads,
                numReads := st.numReads + 1 }) ?_
        show st.numReads + 1 + k ≤ st.numReads + (k + 1)
        omega

/-! ## Claim theorems -/

/-- C1: the claim says converting a node identity to a registry table name
and parsing it back is the identity, including for dotted IPv4 hosts.  On
the code it is not: `get_ip_from_sn_table_name` never turns underscores
back into dots, so `"0.0.0.0:5000"` comes back as `"0_0_0_0:5000"`,
contradicting the source's own comment `sn__0_0_0_0__5000 -> 0.0.0.0:5000`
(utilities.py line 25). -/
theorem c1_table_roundtrip_breaks_on_dotted_host :
    get_sn_table_name_from_ip "0.0.0.0:5000" = some "sn__0_0_0_0__5000"
    ∧ get_ip_from_sn_table_name "sn__0_0_0_0__5000" = some "0_0_0_0:5000"
    ∧ "0_0_0_0:5000" ≠ "0.0.0.0:5000" :=
  ⟨by rfl, by rfl, by decide⟩

/-- C2 counterexample: a PUT with declared size 1 and expected hash equal
to the digest of the empty file, against a peer that closes immediately,
is answered `TRANSFER_SUCCESSFUL` although 0 bytes were written — the
byte count is never compared with the declared size. -/
theorem c2_success_with_wrong_byte_count :
    do_put_handler "storage_0.0.0.0_5000" [] (fun _ => []) ["f.txt", "1", calc_file_md5 []]
      = Except.ok (TRANSFER_SUCCESSFUL_CODE, [("storage_0.0.0.0_5000/f.txt", [])])
    ∧ ([] : List Nat).length ≠ 1 :=
  ⟨by rfl, by decide⟩

/-- C2 (amended): for every PUT request with declared size `S` and
expected hash `H` and every sequence of socket reads, the receive
operation returns `TRANSFER_SUCCESSFUL` exactly when the digest of the
written file equals `H`; the written byte count is not compared against
`S` and may differ from it on success. -/
theorem c2_put_success_iff_digest_matches (storage_dir : String) (fs : FS)
    (reads : Nat → List Nat) (fn ss h resp : String) (fs2 : FS) (n : Int)
    (hn : py_int ss = some n)
    (hok : do_put_handler storage_dir fs reads [fn, ss, h] = Except.ok (resp, fs2)) :
    ∃ c, fs_lookup fs2 (storage_dir ++ "/" ++ os_path_basename fn) = some c
      ∧ (resp = TRANSFER_SUCCESSFUL_CODE ↔ calc_file_md5 c = h) := by
  rw [do_put_handler_eq storage_dir fs reads fn ss h n hn] at hok
  rw [Except.ok.injEq, Prod.mk.injEq] at hok
  obtain ⟨h1, h2⟩ := hok
  subst h2
  refine ⟨(recv_session reads n.toNat).content, fs_lookup_write _ _ _, ?_⟩
  by_cases hmd : calc_file_md5 (recv_session reads n.toNat).content = h
  · rw [if_pos hmd] at h1
    subst h1
    simp [hmd]
  · rw [if_neg hmd] at h1
    subst h1
    constructor
    · intro hr
      exact absurd hr (by decide)
    · intro hc
      exact absurd hc hmd

/-- C2 witness: a complete 1-byte transfer whose hash field is the digest
of the transferred byte is answered `TRANSFER_SUCCESSFUL`. -/
theorem c2_put_success_iff_digest_matches_witness :
    py_int "1" = some 1
    ∧ do_put_handler "s" [] (fun _ => [5]) ["a", "1", calc_file_md5 [5]]
        = Except.ok (TRANSFER_SUCCESSFUL_CODE, [("s/a", [5])])
    ∧ ∃ c, fs_lookup [("s/a", [5])] ("s" ++ "/" ++ os_path_basename "a") = some c
        ∧ (TRANSFER_SUCCESSFUL_CODE = TRANSFER_SUCCESSFUL_CODE ↔
            calc_file_md5 c = calc_file_md5 [5]) :=
  ⟨by rfl, by rfl,
   c2_put_success_iff_digest_matches "s" [] (fun _ => [5]) "a" "1" (calc_file_md5 [5])
     TRANSFER_SUCCESSFUL_CODE [("s/a", [5])] 1 (by rfl) (by rfl)⟩

/-- C3 counterexample: the peer advertises size 2, delivers 1 byte, then
closes; when the expected hash is the digest of that 1-byte content, the
handler answers `TRANSFER_SUCCESSFUL` — a truncated transfer is not
reported by a distinct `TransferTruncated` outcome and can even report
success. -/
theorem c3_truncated_transfer_can_report_success :
    (recv_session (fun k => if k = 0 then [7] else []) 2).total = 1
    ∧ do_put_handler "storage_0.0.0.0_5000" [] (fun k => if k = 0 then [7] else [])
        ["f.txt", "2", calc_file_md5 [7]]
      = Except.ok (TRANSFER_SUCCESSFUL_CODE, [("storage_0.0.0.0_5000/f.txt", [7])]) :=
  ⟨by rfl, by rfl⟩

/-- C3 (amended): when the reads deliver fewer than `S` bytes in total and
the digest of the truncated content differs from the expected hash, the
handler responds with the integrity-failure message, not
`TRANSFER_SUCCESSFUL`; there is no distinct truncated-transfer outcome —
truncation surfaces only through the integrity check, with the same
message as a hash mismatch (and with a matching digest it even reports
success, per the counterexample). -/
theorem c3_truncation_surfaces_as_integrity_error (storage_dir : String) (fs : FS)
    (reads : Nat → List Nat) (fn ss h : String) (n : Int)
    (hn : py_int ss = some n)
    (htrunc : (recv_session reads n.toNat).total < n.toNat)
    (hmd : calc_file_md5 (recv_session reads n.toNat).content ≠ h) :
    do_put_handler storage_dir fs reads [fn, ss, h]
      = Except.ok ("File integrity check failed!",
          fs_write fs (storage_dir ++ "/" ++ os_path_basename fn)
            (recv_session reads n.toNat).content)
    ∧ "File integrity check failed!" ≠ TRANSFER_SUCCESSFUL_CODE := by
  refine ⟨?_, by decide⟩
  rw [do_put_handler_eq storage_dir fs reads fn ss h n hn]
  rw [if_neg hmd]

/-- C3 witness: size 1 advertised, the peer closes at once, and the hash
field is not the digest of the empty file: the response is the
integrity-failure message. -/
theorem c3_truncation_surfaces_as_integrity_error_witness :
    py_int "1" = some 1
    ∧ (recv_session (fun _ => ([] : List Nat)) 1).total < 1
    ∧ calc_file_md5 (recv_session (fun _ => ([] : List Nat)) 1).content ≠ "x"
    ∧ (do_put_handler "s" [] (fun _ => []) ["f", "1", "x"]
        = Except.ok ("File integrity check failed!",
            fs_write [] ("s" ++ "/" ++ os_path_basename "f")
              (recv_session (fun _ => ([] : List Nat)) 1).content)
       ∧ "File integrity check failed!" ≠ TRANSFER_SUCCESSFUL_CODE) :=
  ⟨by rfl, by decide, by decide,
   c3_truncation_surfaces_as_integrity_error "s" [] (fun _ => []) "f" "1" "x" 1
     (by rfl) (by decide) (by decide)⟩

/-- C4: a zero-byte file at both endpoints.  Receive side (claim holds):
with declared size 0 the loop `for _ in range(0)` never runs, makes no
`recv` call, and the handler answers `TRANSFER_SUCCESSFUL`.  Send side
(code bug): `send_file` of an empty file sends the correct header and no
bytes, but returns the default `(NOTIFY_FAILURE, "Operation failed!")`
because the success response is assigned only inside the `range(0)` loop,
which runs zero times. -/
theorem c4_zero_byte_transfer_eval :
    do_put_handler "storage_0.0.0.0_5000" [] (fun _ => [1, 2, 3])
        ["empty.txt", "0", calc_file_md5 []]
      = Except.ok (TRANSFER_SUCCESSFUL_CODE, [("storage_0.0.0.0_5000/empty.txt", [])])
    ∧ (recv_session (fun _ => [1, 2, 3]) 0).numReads = 0
    ∧ (send_file "empty.txt" []).header = "<PUT_REQUEST><>empty.txt<>0<>[]"
    ∧ (send_file "empty.txt" []).sent = []
    ∧ (send_file "empty.txt" []).response = (NOTIFY_FAILURE, "Operation failed!") :=
  ⟨by rfl, by rfl, by rfl, by rfl, by rfl⟩

/-- C5 counterexample: a `PUT_REQUEST` whose argument list has two fields
instead of three makes the tuple unpacking at the top of
`do_put_handler` raise `ValueError` before the `try` block is entered;
the exception escapes `handle` and no response is sent to the peer. -/
theorem c5_malformed_put_escapes_handler :
    handle "storage_0.0.0.0_5000" [] (fun _ => []) "<PUT_REQUEST><>f.txt"
      = Except.error PyError.valueError :=
  by rfl

/-- C5 (amended): errors raised inside the transfer-and-integrity `try`
block are caught and converted into a response, so every PUT whose
argument list has exactly three fields and whose size field parses as an
integer is answered with some response string; but argument unpacking and
`int(file_size)` run before the `try` block, so a wrong field count or a
non-decimal size raises an exception that propagates out of the handler
with no response sent (see the counterexample). -/
theorem c5_parsed_put_always_gets_response (storage_dir : String) (fs : FS)
    (reads : Nat → List Nat) (fn ss h : String) (n : Int)
    (hn : py_int ss = some n) :
    ∃ resp fs2, do_put_handler storage_dir fs reads [fn, ss, h] = Except.ok (resp, fs2) := by
  rw [do_put_handler_eq storage_dir fs reads fn ss h n hn]
  exact ⟨_, _, rfl⟩

/-- C5 witness: a three-field PUT with integer size is answered. -/
theorem c5_parsed_put_always_gets_response_witness :
    py_int "3" = some 3
    ∧ ∃ resp fs2, do_put_handler "s" [] (fun _ => []) ["f", "3", "x"]
        = Except.ok (resp, fs2) :=
  ⟨by rfl, c5_parsed_put_always_gets_response "s" [] (fun _ => []) "f" "3" "x" 3 (by rfl)⟩

/-- C6: when the byte count reaches the declared size but the digest of
the written content differs from the expected hash, the integrity check
surfaces the mismatch as a raised exception (an `Except.error`, not a
boolean `false`), the PUT response is that exception's message rather
than `TRANSFER_SUCCESSFUL`, and the written file is still present in the
storage state the handler returns. -/
theorem c6_integrity_mismatch_raises_and_keeps_file (storage_dir : String) (fs : FS)
    (reads : Nat → List Nat) (fn ss h : String) (n : Int)
    (hn : py_int ss = some n)
    (hsize : (recv_session reads n.toNat).total = n.toNat)
    (hmd : calc_file_md5 (recv_session reads n.toNat).content ≠ h) :
    is_file_integrity_matched (recv_session reads n.toNat).content h
        = Except.error "File integrity check failed!"
    ∧ (∃ fs2, do_put_handler storage_dir fs reads [fn, ss, h]
          = Except.ok ("File integrity check failed!", fs2)
        ∧ fs_lookup fs2 (storage_dir ++ "/" ++ os_path_basename fn)
            = some (recv_session reads n.toNat).content)
    ∧ "File integrity check failed!" ≠ TRANSFER_SUCCESSFUL_CODE := by
  refine ⟨?_,
    ⟨fs_write fs (storage_dir ++ "/" ++ os_path_basename fn)
        (recv_session reads n.toNat).content,
      ?_, fs_lookup_write _ _ _⟩,
    by decide⟩
  · simp [is_file_integrity_matched, hmd]
  · rw [do_put_handler_eq storage_dir fs reads fn ss h n hn, if_neg hmd]

/-- C6 witness: one byte received as declared, but the hash field says
`"deadbeef"`: the integrity error is raised and the file stays on disk. -/
theorem c6_integrity_mismatch_raises_and_keeps_file_witness :
    py_int "1" = some 1
    ∧ (recv_session (fun _ => [5]) (1 : Int).toNat).total = (1 : Int).toNat
    ∧ calc_file_md5 (recv_session (fun _ => [5]) (1 : Int).toNat).content ≠ "deadbeef"
    ∧ (is_file_integrity_matched (recv_session (fun _ => [5]) (1 : Int).toNat).content
          "deadbeef"
        = Except.error "File integrity check failed!"
      ∧ (∃ fs2, do_put_handler "s" [] (fun _ => [5]) ["f", "1", "deadbeef"]
            = Except.ok ("File integrity check failed!", fs2)
          ∧ fs_lookup fs2 ("s" ++ "/" ++ os_path_basename "f")
              = some (recv_session (fun _ => [5]) (1 : Int).toNat).content)
      ∧ "File integrity check failed!" ≠ TRANSFER_SUCCESSFUL_CODE) :=
  ⟨by rfl, by rfl, by decide,
   c6_integrity_mismatch_raises_and_keeps_file "s" [] (fun _ => [5]) "f" "1" "deadbeef" 1
     (by rfl) (by rfl) (by decide)⟩

/-- C7: whatever filename the client supplies, the destination path is the
storage directory joined with the base name of that filename, and a base
name contains no `'/'`, so the path never names anything outside the
storage directory prefix. -/
theorem c7_put_path_is_storage_dir_plus_basename (storage_dir : String) (fs : FS)
    (reads : Nat → List Nat) (fn ss h : String) (n : Int)
    (hn : py_int ss = some n) :
    (∃ resp, do_put_handler storage_dir fs reads [fn, ss, h]
        = Except.ok (resp,
            fs_write fs (storage_dir ++ "/" ++ os_path_basename fn)
              (recv_session reads n.toNat).content))
    ∧ ∀ c ∈ (os_path_basename fn).data, c ≠ '/' :=
  ⟨⟨_, do_put_handler_eq storage_dir fs reads fn ss h n hn⟩,
   os_path_basename_no_slash fn⟩

/-- C7 witness: a traversal-laden filename `"../../etc/passwd"` is written
under the storage directory as plain `"passwd"`. -/
theorem c7_put_path_is_storage_dir_plus_basename_witness :
    py_int "0" = some 0
    ∧ os_path_basename "../../etc/passwd" = "passwd"
    ∧ ((∃ resp, do_put_handler "storage_0.0.0.0_5000" [] (fun _ => [])
            ["../../etc/passwd", "0", "h"]
          = Except.ok (resp,
              fs_write [] ("storage_0.0.0.0_5000" ++ "/" ++ os_path_basename "../../etc/passwd")
                (recv_session (fun _ => ([] : List Nat)) (0 : Int).toNat).content))
       ∧ ∀ c ∈ (os_path_basename "../../etc/passwd").data, c ≠ '/') :=
  ⟨by rfl, by rfl,
   c7_put_path_is_storage_dir_plus_basename "storage_0.0.0.0_5000" [] (fun _ => [])
     "../../etc/passwd" "0" "h" 0 (by rfl)⟩

/-- C8: a connection whose first framed field is `STATUS_REQUEST` is
answered with exactly the fixed availability code `"200"`, and the storage
state is returned unchanged. -/
theorem c8_status_request_fixed_response (storage_dir : String) (fs : FS)
    (reads : Nat → List Nat) (received : String)
    (hreq : (py_split received SEPARATOR).headD "" = STATUS_REQUEST) :
    handle storage_dir fs reads received = Except.ok (SERVER_AVAILABLE_CODE, fs) := by
  simp only [handle]
  rw [hreq]
  rw [if_neg (by decide), if_neg (by decide), if_pos rfl]

/-- C8 witness: the literal request `"<STATUS_REQUEST>"` against a node
holding one file is answered `"200"` with the storage untouched. -/
theorem c8_status_request_fixed_response_witness :
    (py_split "<STATUS_REQUEST>" SEPARATOR).headD "" = STATUS_REQUEST
    ∧ handle "storage_0.0.0.0_5000" [("storage_0.0.0.0_5000/a.txt", [1])] (fun _ => [])
        "<STATUS_REQUEST>"
      = Except.ok (SERVER_AVAILABLE_CODE, [("storage_0.0.0.0_5000/a.txt", [1])]) :=
  ⟨by rfl,
   c8_status_request_fixed_response "storage_0.0.0.0_5000"
     [("storage_0.0.0.0_5000/a.txt", [1])] (fun _ => []) "<STATUS_REQUEST>" (by rfl)⟩

/-- C9 (spec-modelled GET path): the handler resolves the named file under
the storage directory; when absent it answers the `NOTIFY_FAILURE`-class
message, and when present it answers the `PUT_REQUEST`-shaped header
(type, filename, size, hash) followed by the file bytes — by the shape of
`GetResponse` these are the only two possible responses, and the handler
is a total function (it never raises). -/
theorem c9_get_two_response_shapes (storage_dir : String) (fs : FS)
    (fn : String) (rest : List String) :
    (fs_lookup fs (storage_dir ++ "/" ++ os_path_basename fn) = none →
      do_get_handler storage_dir fs (fn :: rest)
        = GetResponse.failure (NOTIFY_FAILURE ++ SEPARATOR ++ "File not found!"))
    ∧ (∀ c, fs_lookup fs (storage_dir ++ "/" ++ os_path_basename fn) = some c →
      do_get_handler storage_dir fs (fn :: rest)
        = GetResponse.fileTransfer
            (PUT_REQUEST ++ SEPARATOR ++ os_path_basename fn ++ SEPARATOR
              ++ toString c.length ++ SEPARATOR ++ calc_file_md5 c) c) := by
  constructor
  · intro habs
    simp [do_get_handler, habs]
  · intro c hc
    simp [do_get_handler, hc]

/-- C9 witness: a stored two-byte file is served back with the
`PUT_REQUEST`-shaped header. -/
theorem c9_get_two_response_shapes_witness :
    fs_lookup [("storage_0.0.0.0_5000/a.txt", [1, 2])]
        ("storage_0.0.0.0_5000" ++ "/" ++ os_path_basename "a.txt") = some [1, 2]
    ∧ do_get_handler "storage_0.0.0.0_5000" [("storage_0.0.0.0_5000/a.txt", [1, 2])]
        ["a.txt"]
      = GetResponse.fileTransfer
          (PUT_REQUEST ++ SEPARATOR ++ os_path_basename "a.txt" ++ SEPARATOR
            ++ toString ([1, 2] : List Nat).length ++ SEPARATOR ++ calc_file_md5 [1, 2])
          [1, 2] :=
  ⟨by rfl,
   (c9_get_two_response_shapes "storage_0.0.0.0_5000"
       [("storage_0.0.0.0_5000/a.txt", [1, 2])] "a.txt" []).2 [1, 2] (by rfl)⟩

/-- C10: for every declared size `n` and every sequence of socket reads,
the receive loop makes at most `n` `recv` calls — it iterates over
`range(n)` — so the receive operation terminates even when the peer never
closes the stream and the running byte count overshoots `n` without ever
equalling it. -/
theorem c10_receive_loop_reads_at_most_declared_size (reads : Nat → List Nat) (n : Nat) :
    (recv_session reads n).numReads ≤ n := by
  have h := recv_write_loop_numReads_le reads n n ⟨0, [], 0⟩
  simpa [recv_session] using h
